import Mathlib

/-!
Shallow embedding of the sales-analytics dashboard script (`dashboard.py`).

The warehouse tables `main.default.itens_venda_mm` and `main.default.produtos_mm`
are modelled as lists of typed rows.  Each SQL query issued by the script and each
pandas post-processing step is translated into a Lean function on those lists:
numeric warehouse values become exact rationals, SQL-nullable columns become
`Option`, SQL `ORDER BY ... DESC` becomes an insertion sort by the ordering key,
and `pd.to_numeric(..., errors='coerce')` followed by `dropna` becomes a filter
on the nullable cells.
-/

/-- SQL `LOWER(TRIM(x))`, the normalization used by the fuzzy catalog join in
`analyze_stock`. -/
def normName (s : String) : String := s.trim.toLower

/-- A row of the sale-line-items table `itens_venda_mm`.  Per the table usage in
the script, `descricaoProduto`, `valor`, `un` and `data` are nullable; `qtde`
(the sale-line quantity) and `vendaId` are always present. -/
structure SaleRow where
  descricaoProduto : Option String
  qtde : ℚ
  valor : Option ℚ
  vendaId : ℕ
  un : Option String
  data : Option ℤ
deriving DecidableEq

/-- A row of the product-catalog table `produtos_mm`; `id` is the catalog row key
(always present), the remaining columns are nullable. -/
structure ProdutoRow where
  id : ℤ
  descricao : Option String
  estoque : Option ℚ
  grupo : Option String
  codigo_fab : Option String
deriving DecidableEq

/-- The ordering relation of `ORDER BY key DESC`: larger keys first. -/
def descBy {α : Type} (key : α → ℚ) (a b : α) : Prop := key b ≤ key a

instance {α : Type} (key : α → ℚ) : DecidableRel (descBy key) :=
fun a b => inferInstanceAs (Decidable (key b ≤ key a))

instance {α : Type} (key : α → ℚ) : IsTotal α (descBy key) :=
⟨fun a b => le_total (key b) (key a)⟩

instance {α : Type} (key : α → ℚ) : IsTrans α (descBy key) :=
⟨fun _ _ _ h1 h2 => le_trans h2 h1⟩

/-- `ORDER BY key DESC`, realized as an insertion sort. -/
def sqlOrderByDesc {α : Type} (key : α → ℚ) (l : List α) : List α :=
  l.insertionSort (descBy key)

/-- SQL `SUM` over a nullable column: null values are skipped and the sum is
`NULL` when no non-null value exists in the group. -/
def sqlSumOpt (l : List (Option ℚ)) : Option ℚ :=
  let vs := l.filterMap id
  if vs.isEmpty then none else some vs.sum

/-- The trimmed product name of a sale row, when the name is present
(SQL `TRIM(descricaoProduto)`). -/
def trimmedName (s : SaleRow) : Option String := s.descricaoProduto.map String.trim

/-- The `WHERE` clause shared by `get_total_products` and `get_top_products`:
`descricaoProduto IS NOT NULL AND LENGTH(TRIM(descricaoProduto)) > 0 AND qtde > 0`. -/
def rankingWhere (s : SaleRow) : Bool :=
  match s.descricaoProduto with
  | none => false
  | some d => decide (d.trim ≠ "") && decide (0 < s.qtde)

/-- The number of distinct trimmed qualifying product names,
`COUNT(DISTINCT TRIM(descricaoProduto))` under `rankingWhere`. -/
def countDistinctProducts (sales : List SaleRow) : ℕ :=
  ((sales.filter rankingWhere).filterMap trimmedName).dedup.length

/-- Outcome of issuing a warehouse query through the driver: it either yields
rows or raises an execution error (modelled as a variant, since the script
catches every such exception at the query boundary). -/
inductive QueryOutcome (α : Type) where
  | ok (rows : α)
  | error
deriving DecidableEq

/-- `get_total_products`: returns 10 when the connection is unavailable, 10 when
the query raises, and otherwise the distinct-product count (the `COUNT` aggregate
result set always holds exactly one row, so the `df.empty` branch never fires).
The function is total: no exception propagates to the caller. -/
def get_total_products (conn : Option Unit) (q : QueryOutcome (List SaleRow)) : ℕ :=
  match conn with
  | none => 10
  | some _ =>
    match q with
    | .error => 10
    | .ok sales => countDistinctProducts sales

/-- A raw row of the `get_top_products` result set as handed to pandas:
`produto`, `quantidade_total`, `num_vendas`, `valor_total`, `unidade`.
The cells touched by `dropna`/`to_numeric` are kept nullable. -/
structure RawTopRow where
  produto : Option String
  quantidade_total : Option ℚ
  num_vendas : ℕ
  valor_total : Option ℚ
  unidade : Option String
deriving DecidableEq

/-- One aggregated group of the ranking query, for group key `k` (a trimmed
product name): `SUM(qtde)`, `COUNT(DISTINCT vendaId)`, `SUM(valor)`, `FIRST(un)`
over the qualifying rows whose trimmed name is `k`. -/
def topGroupRow (fr : List SaleRow) (k : String) : RawTopRow :=
  let g := fr.filter (fun s => trimmedName s == some k)
  { produto := some k
  , quantidade_total := some ((g.map SaleRow.qtde).sum)
  , num_vendas := ((g.map SaleRow.vendaId).dedup).length
  , valor_total := sqlSumOpt (g.map SaleRow.valor)
  , unidade := (g.head?).bind SaleRow.un }

/-- The SQL part of `get_top_products`: filter by `rankingWhere`, group by
trimmed product name, aggregate, `ORDER BY quantidade_total DESC`, `LIMIT n`. -/
def sqlTopProducts (sales : List SaleRow) (n : ℕ) : List RawTopRow :=
  let fr := sales.filter rankingWhere
  let keys := (fr.filterMap trimmedName).dedup
  (sqlOrderByDesc (fun r => r.quantidade_total.getD 0) (keys.map (topGroupRow fr))).take n

/-- The in-function cleanup of `get_top_products` (lines 172-175):
`pd.to_numeric(..., errors='coerce')` on `quantidade_total` and `valor_total`
(the identity on numeric-or-null cells) followed by
`dropna(subset=['produto', 'quantidade_total'])`. -/
def cleanTopFrame (df : List RawTopRow) : List RawTopRow :=
  if df.isEmpty then df
  else df.filter (fun r => r.produto.isSome && r.quantidade_total.isSome)

/-- `get_top_products`: the ranking query followed by its numeric cleanup. -/
def get_top_products (sales : List SaleRow) (limit : ℕ) : List RawTopRow :=
  cleanTopFrame (sqlTopProducts sales limit)

/-- Round an exact amount to cents the way Python's fixed-point float formatting
does on exactly representable inputs: ties go to the even cent. -/
def roundHalfEvenCents (v : ℚ) : ℤ :=
  let x := v * 100
  let f := ⌊x⌋
  if x - f < 1/2 then f
  else if (1 : ℚ)/2 < x - f then f + 1
  else if f % 2 = 0 then f else f + 1

/-- Insert a thousands separator after every third digit counting from the
right; the argument is the reversed digit list. -/
def groupRev : List Char → List Char
  | c1 :: c2 :: c3 :: c4 :: rest => c1 :: c2 :: c3 :: ',' :: groupRev (c4 :: rest)
  | l => l

/-- Group an integer digit string with `,` every three digits, as Python's
thousands-separated format does. -/
def commaGroup (s : String) : String :=
  String.mk ((groupRev s.toList.reverse).reverse)

/-- Zero-pad a cent count below 100 to two digits. -/
def padTwo (n : ℕ) : String := if n < 10 then "0" ++ toString n else toString n

/-- Python `f"{v:,.2f}"`: sign, comma-grouped integer part, dot, two decimals. -/
def pythonMoney (v : ℚ) : String :=
  let c := roundHalfEvenCents v
  let a := c.natAbs
  (if c < 0 then "-" else "") ++ commaGroup (toString (a / 100)) ++ "." ++ padTwo (a % 100)

/-- Python single-character `str.replace`, one pass. -/
def replaceChar (a b : Char) : String → String
  | ⟨l⟩ => ⟨l.map (fun c => if c = a then b else c)⟩

/-- The display lambda of line 385:
`f"R$ {v:,.2f}".replace(",", "X").replace(".", ",").replace("X", ".")` for a
non-null value, `"-"` for a null one. -/
def valor_total_formatado (v : Option ℚ) : String :=
  match v with
  | none => "-"
  | some q => replaceChar 'X' '.' (replaceChar '.' ',' (replaceChar ',' 'X' ("R$ " ++ pythonMoney q)))

/-- The three-pass separator swap applied by the line-385 display lambda. -/
def sepSwapStr (s : String) : String :=
  replaceChar 'X' '.' (replaceChar '.' ',' (replaceChar ',' 'X' s))

/-- The pointwise effect of the three replacement passes on one character:
`,` becomes `.`, `.` becomes `,`, a literal `X` becomes `.`, and every other
character is unchanged. -/
def sepSwapChar (c : Char) : Char :=
  if c = ',' then '.' else if c = '.' then ',' else if c = 'X' then '.' else c

/-- Spec-side thousands grouping: insert `.` after every third digit counting
from the right; the argument is the reversed digit list.  This definition
follows the spec's localized-currency wording and is compared against the
code-side formatter. -/
def specDotGroupRev : List Char → List Char
  | c1 :: c2 :: c3 :: c4 :: rest => c1 :: c2 :: c3 :: '.' :: specDotGroupRev (c4 :: rest)
  | l => l

/-- Spec-side grouping of an integer digit string with `.` every three digits. -/
def specDotGroup (s : String) : String :=
  String.mk ((specDotGroupRev s.toList.reverse).reverse)

/-- The localized amount format described by the spec for `c` cents: optional
sign, integer digits grouped with `.` as thousands separator, `,` as decimal
separator, then the two-digit cent part.  Follows the spec's words; the C5
theorem proves the code formatter renders every non-null value in exactly this
shape behind the `R$ ` prefix. -/
def specLocalizedAmount (c : ℤ) : String :=
  (if c < 0 then "-" else "") ++ specDotGroup (toString (c.natAbs / 100)) ++ "," ++
    padTwo (c.natAbs % 100)

/-- A row handed to the chart layer by `produtos_top_clean` (lines 377-385):
required fields materialized, plus the formatted currency column. -/
structure CleanTopRow where
  produto : String
  quantidade_total : ℚ
  num_vendas : ℕ
  valor_total : Option ℚ
  unidade : Option String
  vtf : String
deriving DecidableEq

/-- The projection applied to each surviving raw row by the presentation
cleanup: unwrap the required fields and attach the formatted currency string. -/
def mkCleanTopRow (r : RawTopRow) : CleanTopRow :=
  { produto := r.produto.getD ""
  , quantidade_total := r.quantidade_total.getD 0
  , num_vendas := r.num_vendas
  , valor_total := r.valor_total
  , unidade := r.unidade
  , vtf := valor_total_formatado r.valor_total }

/-- The presentation cleanup `produtos_top_clean` (lines 377-385):
`dropna(subset=['produto', 'quantidade_total'])`, `astype(str)` on the name,
`to_numeric` plus a second `dropna(['quantidade_total'])` (the identity and a
repeat of the first drop on numeric-or-null cells), `astype(float)`, and the
formatted `valor_total` display column.  `valor_total` itself is never a
`dropna` subject. -/
def produtos_top_clean (df : List RawTopRow) : List CleanTopRow :=
  (df.filter (fun r => r.produto.isSome && r.quantidade_total.isSome)).map mkCleanTopRow

/-- The `WHERE` clause of the stock-analysis aggregation:
`descricaoProduto IS NOT NULL AND data IS NOT NULL`. -/
def stockWhere (s : SaleRow) : Bool :=
  s.descricaoProduto.isSome && s.data.isSome

/-- One row of the `vendas_resumo` CTE for group key `k` (an untrimmed product
name): `SUM(qtde)`, `AVG(qtde)`, `COUNT(DISTINCT DATE(data))`,
`COUNT(DISTINCT vendaId)` over the date-bearing rows named `k`. -/
structure VendaResumo where
  descricaoProduto : String
  total_vendido : ℚ
  media_venda : ℚ
  dias_com_venda : ℕ
  num_vendas : ℕ
deriving DecidableEq

/-- Aggregate one `vendas_resumo` group. -/
def resumoRow (fr : List SaleRow) (k : String) : VendaResumo :=
  let g := fr.filter (fun s => s.descricaoProduto == some k)
  { descricaoProduto := k
  , total_vendido := (g.map SaleRow.qtde).sum
  , media_venda := (g.map SaleRow.qtde).sum / (g.length : ℚ)
  , dias_com_venda := ((g.filterMap SaleRow.data).dedup).length
  , num_vendas := ((g.map SaleRow.vendaId).dedup).length }

/-- The `vendas_resumo` CTE: filter, group by product name, aggregate,
`ORDER BY total_vendido DESC`, `LIMIT n`. -/
def vendasResumo (sales : List SaleRow) (n : ℕ) : List VendaResumo :=
  let fr := sales.filter stockWhere
  let keys := (fr.filterMap SaleRow.descricaoProduto).dedup
  (sqlOrderByDesc VendaResumo.total_vendido (keys.map (resumoRow fr))).take n

/-- The `CASE` expression of the `vendas_com_media_dia` CTE:
`total_vendido / dias_com_venda` when days were recorded, otherwise the fixed
30-day fallback `total_vendido / 30.0`. -/
def mediaVendaDia (total : ℚ) (dias : ℕ) : ℚ :=
  if 0 < dias then total / (dias : ℚ) else total / 30

/-- A `vendas_resumo` row extended with its per-day average. -/
structure VendaComMedia extends VendaResumo where
  media_venda_dia : ℚ
deriving DecidableEq

/-- The `vendas_com_media_dia` CTE. -/
def vendasComMediaDia (sales : List SaleRow) (n : ℕ) : List VendaComMedia :=
  (vendasResumo sales n).map
    (fun v => { toVendaResumo := v
              , media_venda_dia := mediaVendaDia v.total_vendido v.dias_com_venda })

/-- The `LEFT JOIN` condition of `analyze_stock`:
`LOWER(TRIM(v.descricaoProduto)) = LOWER(TRIM(p.descricao))`; a null catalog
description matches nothing. -/
def stockMatch (vname : String) (p : ProdutoRow) : Bool :=
  match p.descricao with
  | none => false
  | some d => normName d == normName vname

/-- A row of the `analyze_stock` result set. -/
structure StockRecord where
  produto : String
  total_vendido : ℚ
  media_venda : ℚ
  media_venda_dia : ℚ
  num_vendas : ℕ
  status_estoque : String
  descricao_cadastro : Option String
  quantidade_estoque : Option ℚ
  grupo : Option String
  codigo_fab : Option String
  dias_estoque : Option ℚ
deriving DecidableEq

/-- The matched branch of the left join: `p.id` is present, so the status
`CASE` yields `'Em Estoque'`, catalog columns come from `p`, and `dias_estoque`
is `p.estoque / media_venda_dia` guarded by `p.estoque IS NOT NULL AND
media_venda_dia > 0`. -/
def mkMatched (v : VendaComMedia) (p : ProdutoRow) : StockRecord :=
  { produto := v.descricaoProduto
  , total_vendido := v.total_vendido
  , media_venda := v.media_venda
  , media_venda_dia := v.media_venda_dia
  , num_vendas := v.num_vendas
  , status_estoque := "Em Estoque"
  , descricao_cadastro := p.descricao
  , quantidade_estoque := p.estoque
  , grupo := p.grupo
  , codigo_fab := p.codigo_fab
  , dias_estoque :=
      match p.estoque with
      | none => none
      | some e => if 0 < v.media_venda_dia then some (e / v.media_venda_dia) else none }

/-- The unmatched branch of the left join: every catalog column is `NULL`,
`p.id IS NULL` makes the status `'Sem Estoque'`, and the `dias_estoque` guard
fails. -/
def mkUnmatched (v : VendaComMedia) : StockRecord :=
  { produto := v.descricaoProduto
  , total_vendido := v.total_vendido
  , media_venda := v.media_venda
  , media_venda_dia := v.media_venda_dia
  , num_vendas := v.num_vendas
  , status_estoque := "Sem Estoque"
  , descricao_cadastro := none
  , quantidade_estoque := none
  , grupo := none
  , codigo_fab := none
  , dias_estoque := none }

/-- `LEFT JOIN produtos_mm p ON ...` for one aggregated sales row: one output
record per matching catalog row, or a single all-null record when none match. -/
def joinStock (catalog : List ProdutoRow) (v : VendaComMedia) : List StockRecord :=
  let ms := catalog.filter (stockMatch v.descricaoProduto)
  if ms.isEmpty then [mkUnmatched v] else ms.map (mkMatched v)

/-- `analyze_stock`: the aggregation CTEs, the fuzzy left join against the
catalog, and the outer `ORDER BY total_vendido DESC`. -/
def analyze_stock (sales : List SaleRow) (catalog : List ProdutoRow) (n : ℕ) :
    List StockRecord :=
  sqlOrderByDesc StockRecord.total_vendido
    ((vendasComMediaDia sales n).flatMap (joinStock catalog))

/-- A row of the seasonality fallback query (`query_alt`, lines 217-232):
product name, sale id and quantity. -/
structure AltRow where
  produto : String
  vendaId : ℕ
  quantidade : ℚ
deriving DecidableEq

/-- `df['vendaId'].max()` of the fallback frame. -/
def maxVendaId (rows : List AltRow) : ℕ :=
  (rows.map AltRow.vendaId).foldr max 0

/-- The synthesized month bucket of line 238:
`(vendaId / max_venda * 12).astype(int) % 12 + 1`; `astype(int)` truncates
toward zero, which on these non-negative quotients is the floor. -/
def mes_num_of (id m : ℕ) : ℕ :=
  (⌊(id : ℚ) / (m : ℚ) * 12⌋).toNat % 12 + 1

/-- The synthesized month label of line 239, `strftime('2024-%m')` of the
bucket: the fixed reference year 2024 with a zero-padded month. -/
def mes_of (k : ℕ) : String :=
  "2024-" ++ (if k < 10 then "0" ++ toString k else toString k)

/-- A fallback row after the bucket columns `mes_num` and `mes` are added. -/
structure AssignedRow extends AltRow where
  mes_num : ℕ
  mes : String
deriving DecidableEq

/-- Lines 237-239 of the fallback: compute `max_venda` once and attach the
synthesized `mes_num` and `mes` columns to every record. -/
def fallbackAssign (rows : List AltRow) : List AssignedRow :=
  let m := maxVendaId rows
  rows.map (fun r => { toAltRow := r
                     , mes_num := mes_num_of r.vendaId m
                     , mes := mes_of (mes_num_of r.vendaId m) })

/-- A point of the seasonality result: product, month key, summed quantity. -/
structure SeasonPoint where
  produto : String
  mes : String
  quantidade : ℚ
deriving DecidableEq

/-- Line 240, `groupby(['produto', 'mes'])['quantidade'].sum()`: one output
point per distinct (product, month) pair of the bucketed frame. -/
def fallbackSeasonality (rows : List AltRow) : List SeasonPoint :=
  let asg := fallbackAssign rows
  let keys := (asg.map (fun a => (a.produto, a.mes))).dedup
  keys.map (fun k =>
    { produto := k.1
    , mes := k.2
    , quantidade :=
        ((asg.filter (fun a => a.produto == k.1 && a.mes == k.2)).map
          (fun a => a.quantidade)).sum })

/-- The arbitration expression of line 353:
`top_n_input if top_n_input != top_n_slider else top_n_slider`. -/
def top_n (top_n_input top_n_slider : ℤ) : ℤ :=
  if top_n_input ≠ top_n_slider then top_n_input else top_n_slider

/-- Seeded sales table for the ranking witnesses: three distinct products with
quantities 50, 30 and 20. -/
def exSalesRanked : List SaleRow :=
  [ { descricaoProduto := some "A", qtde := 50, valor := some 10, vendaId := 1
    , un := some "UN", data := some 1 }
  , { descricaoProduto := some "B", qtde := 30, valor := none, vendaId := 2
    , un := none, data := some 1 }
  , { descricaoProduto := some "C", qtde := 20, valor := none, vendaId := 3
    , un := none, data := some 1 } ]

/-- One-row sales table for the positivity witness. -/
def exSalesOne : List SaleRow :=
  [ { descricaoProduto := some "A", qtde := 5, valor := none, vendaId := 1
    , un := none, data := some 0 } ]

/-- The ranking record produced from `exSalesOne`. -/
def exTopRawA : RawTopRow :=
  { produto := some "A", quantidade_total := some 5, num_vendas := 1
  , valor_total := none, unidade := none }

/-- One-row sales table whose only sale line carries a null `valor`. -/
def exSalesValorNull : List SaleRow :=
  [ { descricaoProduto := some "A", qtde := 5, valor := none, vendaId := 1
    , un := none, data := some 0 } ]

/-- A one-row raw ranking frame with a null `valor_total` cell. -/
def exDfValorNull : List RawTopRow :=
  [ { produto := some "A", quantidade_total := some 5, num_vendas := 1
    , valor_total := none, unidade := none } ]

/-- The cleaned presentation row arising from `exDfValorNull`. -/
def exCleanRowA : CleanTopRow :=
  mkCleanTopRow
    { produto := some "A", quantidade_total := some 5, num_vendas := 1
    , valor_total := none, unidade := none }

/-- Sales table for the stock-analysis witnesses: product A sold twice on two
distinct days, product B once; only A has a catalog match. -/
def exStockSales : List SaleRow :=
  [ { descricaoProduto := some "A", qtde := 6, valor := some 10, vendaId := 1
    , un := some "UN", data := some 100 }
  , { descricaoProduto := some "A", qtde := 4, valor := some 20, vendaId := 2
    , un := some "UN", data := some 101 }
  , { descricaoProduto := some "B", qtde := 5, valor := none, vendaId := 3
    , un := none, data := some 100 } ]

/-- Catalog with a single entry whose description matches product A only after
trimming and case folding. -/
def exCatalog : List ProdutoRow :=
  [ { id := 1, descricao := some " a ", estoque := some 30, grupo := some "G1"
    , codigo_fab := some "F1" } ]

/-- The matched stock record produced from `exStockSales` and `exCatalog`. -/
def exStockRecA : StockRecord :=
  { produto := "A", total_vendido := 10, media_venda := 5, media_venda_dia := 5
  , num_vendas := 2, status_estoque := "Em Estoque", descricao_cadastro := some " a "
  , quantidade_estoque := some 30, grupo := some "G1", codigo_fab := some "F1"
  , dias_estoque := some 6 }

/-- The unmatched stock record produced from `exStockSales` and `exCatalog`. -/
def exStockRecB : StockRecord :=
  { produto := "B", total_vendido := 5, media_venda := 5, media_venda_dia := 5
  , num_vendas := 1, status_estoque := "Sem Estoque", descricao_cadastro := none
  , quantidade_estoque := none, grupo := none, codigo_fab := none
  , dias_estoque := none }

/-- The aggregated per-day row for product A from `exStockSales`. -/
def exVendaA : VendaComMedia :=
  { descricaoProduto := "A", total_vendido := 10, media_venda := 5
  , dias_com_venda := 2, num_vendas := 2, media_venda_dia := 5 }

/-- Fallback seasonality rows for the bucket witness. -/
def exAltRows : List AltRow :=
  [ { produto := "A", vendaId := 1, quantidade := 5 }
  , { produto := "B", vendaId := 2, quantidade := 3 } ]

/-!
Helper lemmas shared by the claim theorems.
-/

theorem mem_sqlOrderByDesc {α : Type} (key : α → ℚ) (l : List α) (a : α) :
    a ∈ sqlOrderByDesc key l ↔ a ∈ l :=
  (List.perm_insertionSort (descBy key) l).mem_iff

theorem perm_sqlOrderByDesc {α : Type} (key : α → ℚ) (l : List α) :
    (sqlOrderByDesc key l).Perm l :=
  List.perm_insertionSort (descBy key) l

theorem pairwise_sqlOrderByDesc {α : Type} (key : α → ℚ) (l : List α) :
    List.Pairwise (fun a b => key b ≤ key a) (sqlOrderByDesc key l) :=
  List.sorted_insertionSort (descBy key) l

theorem cleanTopFrame_sublist (df : List RawTopRow) :
    (cleanTopFrame df).Sublist df := by
  unfold cleanTopFrame
  split
  · exact List.Sublist.refl _
  · exact List.filter_sublist _

theorem rankingWhere_iff (s : SaleRow) :
    rankingWhere s = true ↔
      ∃ d : String, s.descricaoProduto = some d ∧ d.trim ≠ "" ∧ 0 < s.qtde := by
  unfold rankingWhere
  cases h : s.descricaoProduto with
  | none => simp [h]
  | some d => simp [h, Bool.and_eq_true, decide_eq_true_iff]

theorem replaceChar_append (a b : Char) (s t : String) :
    replaceChar a b (s ++ t) = replaceChar a b s ++ replaceChar a b t := by
  cases s with
  | mk l1 =>
    cases t with
    | mk l2 =>
      exact congrArg String.mk (List.map_append _ l1 l2)

theorem sepSwapStr_append (s t : String) :
    sepSwapStr (s ++ t) = sepSwapStr s ++ sepSwapStr t := by
  unfold sepSwapStr
  rw [replaceChar_append, replaceChar_append, replaceChar_append]

theorem sepSwapChar_eq (c : Char) :
    (fun x => if x = 'X' then '.' else x)
      ((fun x => if x = '.' then ',' else x)
        ((fun x => if x = ',' then 'X' else x) c)) = sepSwapChar c := by
  unfold sepSwapChar
  by_cases h1 : c = ','
  · subst h1
    with_unfolding_all decide
  · by_cases h2 : c = '.'
    · subst h2
      with_unfolding_all decide
    · by_cases h3 : c = 'X'
      · subst h3
        with_unfolding_all decide
      · simp [h1, h2, h3]

theorem sepSwapStr_eq_map (s : String) :
    sepSwapStr s = String.mk (s.data.map sepSwapChar) := by
  cases s with
  | mk l =>
    show String.mk
        (((l.map (fun c => if c = ',' then 'X' else c)).map
            (fun c => if c = '.' then ',' else c)).map
          (fun c => if c = 'X' then '.' else c)) =
      String.mk (l.map sepSwapChar)
    rw [List.map_map, List.map_map]
    exact congrArg String.mk (List.map_congr_left fun c _ => sepSwapChar_eq c)

theorem sepSwapChar_digit (c : Char) (h : c.isDigit = true) : sepSwapChar c = c := by
  unfold sepSwapChar
  have h1 : c ≠ ',' := by
    rintro rfl
    exact absurd h (by with_unfolding_all decide)
  have h2 : c ≠ '.' := by
    rintro rfl
    exact absurd h (by with_unfolding_all decide)
  have h3 : c ≠ 'X' := by
    rintro rfl
    exact absurd h (by with_unfolding_all decide)
  rw [if_neg h1, if_neg h2, if_neg h3]

theorem digitChar_isDigit : ∀ m : ℕ, m < 10 → (Nat.digitChar m).isDigit = true := by
  with_unfolding_all decide

theorem toDigitsCore_digits :
    ∀ (f n : ℕ) (acc : List Char), (∀ c ∈ acc, c.isDigit = true) →
      ∀ c ∈ Nat.toDigitsCore 10 f n acc, c.isDigit = true := by
  intro f
  induction f with
  | zero =>
    intro n acc hacc c hc
    exact hacc c hc
  | succ f ih =>
    intro n acc hacc c hc
    simp only [Nat.toDigitsCore] at hc
    by_cases h : n / 10 = 0
    · rw [if_pos h] at hc
      rcases List.mem_cons.mp hc with rfl | hc2
      · exact digitChar_isDigit _ (Nat.mod_lt _ (by norm_num))
      · exact hacc c hc2
    · rw [if_neg h] at hc
      refine ih (n / 10) (Nat.digitChar (n % 10) :: acc) ?_ c hc
      intro c2 hc2
      rcases List.mem_cons.mp hc2 with rfl | hc3
      · exact digitChar_isDigit _ (Nat.mod_lt _ (by norm_num))
      · exact hacc c2 hc3

theorem toString_nat_digits (n : ℕ) : ∀ c ∈ (toString n).data, c.isDigit = true := by
  intro c hc
  refine toDigitsCore_digits (n + 1) n [] ?_ c hc
  intro c2 hc2
  exact absurd hc2 (List.not_mem_nil c2)

theorem padTwo_digits (n : ℕ) : ∀ c ∈ (padTwo n).data, c.isDigit = true := by
  unfold padTwo
  split
  · intro c hc
    rw [String.data_append] at hc
    rcases List.mem_append.mp hc with h | h
    · have hz : ("0" : String).data = ['0'] := by with_unfolding_all decide
      rw [hz] at h
      have hc0 : c = '0' := by simpa using h
      subst hc0
      with_unfolding_all decide
    · exact toString_nat_digits n c h
  · exact toString_nat_digits n

theorem padTwo_two_digits : ∀ m : ℕ, m < 100 → (padTwo m).length = 2 := by
  with_unfolding_all decide

theorem map_groupRev : ∀ (l : List Char), (∀ c ∈ l, c.isDigit = true) →
    (groupRev l).map sepSwapChar = specDotGroupRev l
  | [], _ => rfl
  | [c1], hd => by
    have h1 := sepSwapChar_digit c1 (hd c1 (by simp))
    simp [groupRev, specDotGroupRev, h1]
  | [c1, c2], hd => by
    have h1 := sepSwapChar_digit c1 (hd c1 (by simp))
    have h2 := sepSwapChar_digit c2 (hd c2 (by simp))
    simp [groupRev, specDotGroupRev, h1, h2]
  | [c1, c2, c3], hd => by
    have h1 := sepSwapChar_digit c1 (hd c1 (by simp))
    have h2 := sepSwapChar_digit c2 (hd c2 (by simp))
    have h3 := sepSwapChar_digit c3 (hd c3 (by simp))
    simp [groupRev, specDotGroupRev, h1, h2, h3]
  | c1 :: c2 :: c3 :: c4 :: rest, hd => by
    have h1 := sepSwapChar_digit c1 (hd c1 (by simp))
    have h2 := sepSwapChar_digit c2 (hd c2 (by simp))
    have h3 := sepSwapChar_digit c3 (hd c3 (by simp))
    have hcomma : sepSwapChar ',' = '.' := by with_unfolding_all decide
    have ih := map_groupRev (c4 :: rest) (fun c hc =>
      hd c (List.mem_cons_of_mem _ (List.mem_cons_of_mem _ (List.mem_cons_of_mem _ hc))))
    simp [groupRev, specDotGroupRev, h1, h2, h3, hcomma, ih]

theorem sepSwapStr_digits (s : String) (hd : ∀ c ∈ s.data, c.isDigit = true) :
    sepSwapStr s = s := by
  cases s with
  | mk l =>
    rw [sepSwapStr_eq_map]
    show String.mk (l.map sepSwapChar) = String.mk l
    refine congrArg String.mk ?_
    have h1 : l.map sepSwapChar = l.map id :=
      List.map_congr_left fun c hc => sepSwapChar_digit c (hd c hc)
    rw [h1, List.map_id]

theorem sepSwapStr_commaGroup (s : String) (hd : ∀ c ∈ s.data, c.isDigit = true) :
    sepSwapStr (commaGroup s) = specDotGroup s := by
  rw [sepSwapStr_eq_map]
  show String.mk (((groupRev s.data.reverse).reverse).map sepSwapChar) =
    String.mk ((specDotGroupRev s.data.reverse).reverse)
  refine congrArg String.mk ?_
  rw [List.map_reverse]
  rw [map_groupRev s.data.reverse (fun c hc => hd c (List.mem_reverse.mp hc))]

theorem vtf_localized (v : ℚ) :
    valor_total_formatado (some v) = "R$ " ++ specLocalizedAmount (roundHalfEvenCents v) := by
  show sepSwapStr ("R$ " ++ pythonMoney v) = _
  rw [sepSwapStr_append]
  have hR : sepSwapStr "R$ " = "R$ " := by with_unfolding_all decide
  rw [hR]
  refine congrArg (fun t => "R$ " ++ t) ?_
  show sepSwapStr
      ((if roundHalfEvenCents v < 0 then "-" else "") ++
        commaGroup (toString ((roundHalfEvenCents v).natAbs / 100)) ++ "." ++
        padTwo ((roundHalfEvenCents v).natAbs % 100)) =
    specLocalizedAmount (roundHalfEvenCents v)
  rw [sepSwapStr_append, sepSwapStr_append, sepSwapStr_append]
  have hsign : sepSwapStr (if roundHalfEvenCents v < 0 then "-" else "") =
      (if roundHalfEvenCents v < 0 then "-" else "") := by
    split
    · with_unfolding_all decide
    · with_unfolding_all decide
  have hdot : sepSwapStr "." = "," := by with_unfolding_all decide
  rw [hsign, hdot, sepSwapStr_commaGroup _ (toString_nat_digits _),
    sepSwapStr_digits _ (padTwo_digits _)]
  rfl

/-- C10: the arbitration expression `top_n_input if top_n_input != top_n_slider
else top_n_slider` is extensionally the identity on the number-input value, for
every pair of slider and input values. -/
theorem top_n_eq_input (top_n_input top_n_slider : ℤ) :
    top_n top_n_input top_n_slider = top_n_input := by
  unfold top_n
  split
  · rfl
  · next h => exact (not_not.mp h).symm

/-- C7: `get_total_products` returns the fallback constant 10 whenever the
connection is unavailable and whenever the query raises an execution error;
being a total function of the modelled outcome, it propagates no exception. -/
theorem get_total_products_fallback :
    (∀ q : QueryOutcome (List SaleRow), get_total_products none q = 10) ∧
    (∀ conn : Option Unit, get_total_products conn QueryOutcome.error = 10) := by
  constructor
  · intro q
    rfl
  · intro conn
    cases conn <;> rfl

/-- C5: the currency formatter maps a null input to `"-"` and the input 1234.5
to `"R$ 1.234,50"`; in general every non-null value is rendered as the `"R$ "`
prefix followed by the spec's localized amount shape — optional sign, integer
digits grouped with `.` as thousands separator, `,` as decimal separator, and
a cent part that always has exactly two digits. -/
theorem valor_total_formatado_spec :
    valor_total_formatado none = "-" ∧
    valor_total_formatado (some (1234.5 : ℚ)) = "R$ 1.234,50" ∧
    (∀ v : ℚ,
      valor_total_formatado (some v) =
        "R$ " ++ specLocalizedAmount (roundHalfEvenCents v)) ∧
    (∀ n : ℕ, (padTwo (n % 100)).length = 2) := by
  refine ⟨rfl, ?_, ?_, ?_⟩
  · with_unfolding_all decide
  · intro v
    exact vtf_localized v
  · intro n
    exact padTwo_two_digits (n % 100) (Nat.mod_lt _ (by norm_num))

/-- C4: for every product row aggregated by the stock analysis, the per-day
average equals `total_vendido / dias_com_venda` when `dias_com_venda > 0` and
`total_vendido / 30` otherwise; in particular the `CASE` fallback maps total 90
with 0 distinct days to 3. -/
theorem media_venda_dia_rule (sales : List SaleRow) (n : ℕ) (v : VendaComMedia)
    (hv : v ∈ vendasComMediaDia sales n) :
    (v.media_venda_dia =
      if 0 < v.dias_com_venda then v.total_vendido / (v.dias_com_venda : ℚ)
      else v.total_vendido / 30) ∧
    mediaVendaDia 90 0 = 3 := by
  constructor
  · unfold vendasComMediaDia at hv
    obtain ⟨v0, _, rfl⟩ := List.mem_map.mp hv
    simp [mediaVendaDia]
  · show (if (0 : ℕ) < 0 then (90 : ℚ) / ((0 : ℕ) : ℚ) else (90 : ℚ) / 30) = 3
    norm_num

/-- Witness for `media_venda_dia_rule` at the seeded stock table. -/
theorem media_venda_dia_rule_witness :
    (exVendaA.media_venda_dia =
      if 0 < exVendaA.dias_com_venda then
        exVendaA.total_vendido / (exVendaA.dias_com_venda : ℚ)
      else exVendaA.total_vendido / 30) ∧
    mediaVendaDia 90 0 = 3 :=
  media_venda_dia_rule exStockSales 10 exVendaA (by with_unfolding_all decide)

/-- C2: for every sales table and every `N ≥ 2`, `get_top_products` returns at
most `N` records, sorted by total quantity sold in descending order, with no
two records sharing a (trimmed) product name. -/
theorem top_products_ranked (sales : List SaleRow) (n : ℕ) (hn : 2 ≤ n) :
    (get_top_products sales n).length ≤ n ∧
    List.Pairwise
      (fun a b : RawTopRow => b.quantidade_total.getD 0 ≤ a.quantidade_total.getD 0)
      (get_top_products sales n) ∧
    ((get_top_products sales n).map RawTopRow.produto).Nodup := by
  have hsub : (get_top_products sales n).Sublist (sqlTopProducts sales n) :=
    cleanTopFrame_sublist _
  refine ⟨?_, ?_, ?_⟩
  · refine le_trans hsub.length_le ?_
    unfold sqlTopProducts
    exact List.length_take_le n _
  · refine List.Pairwise.sublist hsub ?_
    unfold sqlTopProducts
    exact List.Pairwise.sublist (List.take_sublist _ _) (pairwise_sqlOrderByDesc _ _)
  · refine List.Nodup.sublist (hsub.map _) ?_
    unfold sqlTopProducts
    refine List.Nodup.sublist (List.Sublist.map _ (List.take_sublist _ _)) ?_
    rw [((perm_sqlOrderByDesc _ _).map _).nodup_iff]
    rw [List.map_map]
    have heq :
        ((((sales.filter rankingWhere).filterMap trimmedName).dedup).map
          (RawTopRow.produto ∘ topGroupRow (sales.filter rankingWhere))) =
        (((sales.filter rankingWhere).filterMap trimmedName).dedup).map some :=
      List.map_congr_left (fun k _ => rfl)
    rw [heq]
    exact (List.nodup_dedup _).map (Option.some_injective _)

/-- Witness for `top_products_ranked` at the seeded three-product table; the
extra conjunct checks the end-to-end ranking: `topProducts(2)` returns exactly
the two highest-quantity products in descending order and excludes the third. -/
theorem top_products_ranked_witness :
    ((get_top_products exSalesRanked 2).length ≤ 2 ∧
     List.Pairwise
       (fun a b : RawTopRow => b.quantidade_total.getD 0 ≤ a.quantidade_total.getD 0)
       (get_top_products exSalesRanked 2) ∧
     ((get_top_products exSalesRanked 2).map RawTopRow.produto).Nodup) ∧
    (get_top_products exSalesRanked 2).map RawTopRow.produto = [some "A", some "B"] :=
  ⟨top_products_ranked exSalesRanked 2 (by decide), by with_unfolding_all decide⟩

/-- C9: every record returned by `get_top_products` has a strictly positive
total quantity sold, because only sale lines with `qtde > 0` are aggregated. -/
theorem top_products_quantity_pos (sales : List SaleRow) (n : ℕ) (r : RawTopRow)
    (hr : r ∈ get_top_products sales n) :
    ∃ q : ℚ, r.quantidade_total = some q ∧ 0 < q := by
  have h1 : r ∈ sqlTopProducts sales n := (cleanTopFrame_sublist _).mem hr
  unfold sqlTopProducts at h1
  have h2 : r ∈ sqlOrderByDesc (fun t => t.quantidade_total.getD 0)
      ((((sales.filter rankingWhere).filterMap trimmedName).dedup).map
        (topGroupRow (sales.filter rankingWhere))) :=
    (List.take_sublist _ _).mem h1
  rw [mem_sqlOrderByDesc] at h2
  obtain ⟨k, hk, rfl⟩ := List.mem_map.mp h2
  rw [List.mem_dedup] at hk
  obtain ⟨s, hs, hsk⟩ := List.mem_filterMap.mp hk
  refine ⟨_, rfl, ?_⟩
  apply List.sum_pos
  · intro x hx
    obtain ⟨y, hy, rfl⟩ := List.mem_map.mp hx
    have hy1 : y ∈ sales.filter rankingWhere := (List.mem_filter.mp hy).1
    have hy2 : rankingWhere y = true := (List.mem_filter.mp hy1).2
    obtain ⟨d, _, _, hq⟩ := (rankingWhere_iff y).mp hy2
    exact hq
  · have hsg : s ∈ (sales.filter rankingWhere).filter
        (fun t => trimmedName t == some k) :=
      List.mem_filter.mpr ⟨hs, by simp [hsk]⟩
    intro hnil
    rw [List.map_eq_nil_iff] at hnil
    exact (List.ne_nil_of_mem hsg) hnil

/-- Witness for `top_products_quantity_pos` at a one-row sales table. -/
theorem top_products_quantity_pos_witness :
    ∃ q : ℚ, exTopRawA.quantidade_total = some q ∧ 0 < q :=
  top_products_quantity_pos exSalesOne 5 exTopRawA (by with_unfolding_all decide)

theorem mem_analyze_stock {sales : List SaleRow} {catalog : List ProdutoRow}
    {n : ℕ} {r : StockRecord} (hr : r ∈ analyze_stock sales catalog n) :
    ∃ v ∈ vendasComMediaDia sales n,
      (∃ p ∈ catalog, stockMatch v.descricaoProduto p = true ∧ r = mkMatched v p) ∨
      ((∀ p ∈ catalog, stockMatch v.descricaoProduto p = false) ∧ r = mkUnmatched v) := by
  unfold analyze_stock at hr
  rw [mem_sqlOrderByDesc] at hr
  obtain ⟨v, hv, hrv⟩ := List.mem_flatMap.mp hr
  refine ⟨v, hv, ?_⟩
  unfold joinStock at hrv
  by_cases hempty : (catalog.filter (stockMatch v.descricaoProduto)).isEmpty = true
  · rw [if_pos hempty] at hrv
    right
    have hnil : catalog.filter (stockMatch v.descricaoProduto) = [] :=
      List.isEmpty_iff.mp hempty
    refine ⟨?_, (List.mem_singleton.mp hrv)⟩
    intro p hp
    by_contra hne
    have hpt : stockMatch v.descricaoProduto p = true := by
      cases h : stockMatch v.descricaoProduto p
      · exact absurd h hne
      · rfl
    have : p ∈ catalog.filter (stockMatch v.descricaoProduto) :=
      List.mem_filter.mpr ⟨hp, hpt⟩
    rw [hnil] at this
    exact absurd this (List.not_mem_nil p)
  · rw [if_neg hempty] at hrv
    left
    obtain ⟨p, hp, rfl⟩ := List.mem_map.mp hrv
    exact ⟨p, (List.mem_filter.mp hp).1, (List.mem_filter.mp hp).2, rfl⟩

theorem stockMatch_iff (vname : String) (p : ProdutoRow) :
    stockMatch vname p = true ↔
      ∃ d : String, p.descricao = some d ∧ normName d = normName vname := by
  unfold stockMatch
  cases h : p.descricao with
  | none => simp [h]
  | some d => simp [h]

/-- C1: a record of `analyze_stock` is classified `'Em Estoque'` exactly when a
catalog entry exists whose trimmed, case-folded description equals the trimmed,
case-folded sale product name; otherwise it is `'Sem Estoque'` and every
catalog-derived field is null. -/
theorem stock_status_iff (sales : List SaleRow) (catalog : List ProdutoRow)
    (n : ℕ) (r : StockRecord) (hr : r ∈ analyze_stock sales catalog n) :
    (r.status_estoque = "Em Estoque" ↔
      ∃ p ∈ catalog, ∃ d : String, p.descricao = some d ∧
        normName d = normName r.produto) ∧
    (r.status_estoque ≠ "Em Estoque" →
      r.status_estoque = "Sem Estoque" ∧ r.descricao_cadastro = none ∧
      r.quantidade_estoque = none ∧ r.grupo = none ∧ r.codigo_fab = none ∧
      r.dias_estoque = none) := by
  obtain ⟨v, _, hcase⟩ := mem_analyze_stock hr
  rcases hcase with ⟨p0, hp0, hm0, rfl⟩ | ⟨hnone, rfl⟩
  · constructor
    · constructor
      · intro _
        obtain ⟨d, hd, hnn⟩ := (stockMatch_iff _ _).mp hm0
        exact ⟨p0, hp0, d, hd, hnn⟩
      · intro _
        rfl
    · intro hcontra
      exact absurd rfl hcontra
  · constructor
    · constructor
      · intro habs
        rw [show (mkUnmatched v).status_estoque = "Sem Estoque" from rfl] at habs
        exact absurd habs (by decide)
      · rintro ⟨p, hp, d, hd, hnn⟩
        have : stockMatch (mkUnmatched v).produto p = true :=
          (stockMatch_iff _ _).mpr ⟨d, hd, hnn⟩
        have hfalse := hnone p hp
        rw [show (mkUnmatched v).produto = v.descricaoProduto from rfl] at this
        rw [hfalse] at this
        exact absurd this (by decide)
    · intro _
      exact ⟨rfl, rfl, rfl, rfl, rfl, rfl⟩

/-- Witness for `stock_status_iff` at the seeded stock table, on the matched
record for product A. -/
theorem stock_status_iff_witness :
    (exStockRecA.status_estoque = "Em Estoque" ↔
      ∃ p ∈ exCatalog, ∃ d : String, p.descricao = some d ∧
        normName d = normName exStockRecA.produto) ∧
    (exStockRecA.status_estoque ≠ "Em Estoque" →
      exStockRecA.status_estoque = "Sem Estoque" ∧
      exStockRecA.descricao_cadastro = none ∧
      exStockRecA.quantidade_estoque = none ∧ exStockRecA.grupo = none ∧
      exStockRecA.codigo_fab = none ∧ exStockRecA.dias_estoque = none) :=
  stock_status_iff exStockSales exCatalog 10 exStockRecA (by with_unfolding_all decide)

/-- C3: in every `analyze_stock` record, `dias_estoque` is null exactly when
the per-day average is nonpositive or the catalog stock quantity is absent, and
otherwise equals `quantidade_estoque / media_venda_dia`. -/
theorem dias_estoque_rule (sales : List SaleRow) (catalog : List ProdutoRow)
    (n : ℕ) (r : StockRecord) (hr : r ∈ analyze_stock sales catalog n) :
    (r.dias_estoque = none ↔
      (r.media_venda_dia ≤ 0 ∨ r.quantidade_estoque = none)) ∧
    (∀ e : ℚ, r.quantidade_estoque = some e → 0 < r.media_venda_dia →
      r.dias_estoque = some (e / r.media_venda_dia)) := by
  obtain ⟨v, _, hcase⟩ := mem_analyze_stock hr
  rcases hcase with ⟨p0, _, _, rfl⟩ | ⟨_, rfl⟩
  · cases hest : p0.estoque with
    | none =>
      constructor
      · simp [mkMatched, hest]
      · intro e he
        rw [show (mkMatched v p0).quantidade_estoque = p0.estoque from rfl, hest] at he
        exact absurd he (by simp)
    | some e0 =>
      by_cases hpos : 0 < v.media_venda_dia
      · constructor
        · simp only [mkMatched, hest, if_pos hpos]
          constructor
          · intro habs
            exact absurd habs (by simp)
          · rintro (hle | habs)
            · exact absurd hpos (not_lt.mpr hle)
            · exact absurd habs (by simp)
        · intro e he hpos2
          rw [show (mkMatched v p0).quantidade_estoque = p0.estoque from rfl, hest] at he
          have he' : e0 = e := Option.some_injective _ he
          simp [mkMatched, hest, if_pos hpos, he']
      · constructor
        · simp only [mkMatched, hest, if_neg hpos]
          constructor
          · intro _
            exact Or.inl (not_lt.mp hpos)
          · intro _
            trivial
        · intro e he hpos2
          exact absurd hpos2 hpos
  · constructor
    · constructor
      · intro _
        exact Or.inr rfl
      · intro _
        rfl
    · intro e he
      exact absurd he (by simp [mkUnmatched])

/-- Witness for `dias_estoque_rule` at the seeded stock table, on the unmatched
record for product B. -/
theorem dias_estoque_rule_witness :
    (exStockRecB.dias_estoque = none ↔
      (exStockRecB.media_venda_dia ≤ 0 ∨ exStockRecB.quantidade_estoque = none)) ∧
    (∀ e : ℚ, exStockRecB.quantidade_estoque = some e →
      0 < exStockRecB.media_venda_dia →
      exStockRecB.dias_estoque = some (e / exStockRecB.media_venda_dia)) :=
  dias_estoque_rule exStockSales exCatalog 10 exStockRecB (by with_unfolding_all decide)

theorem mes_num_of_cast (id m : ℕ) :
    ((mes_num_of id m : ℕ) : ℤ) = ⌊(id : ℚ) / (m : ℚ) * 12⌋ % 12 + 1 := by
  unfold mes_num_of
  have hq : (0 : ℚ) ≤ (id : ℚ) / (m : ℚ) * 12 :=
    mul_nonneg (div_nonneg (Nat.cast_nonneg id) (Nat.cast_nonneg m)) (by norm_num)
  have hf : (0 : ℤ) ≤ ⌊(id : ℚ) / (m : ℚ) * 12⌋ := Int.floor_nonneg.mpr hq
  push_cast
  rw [Int.toNat_of_nonneg hf]

theorem mes_num_of_bounds (id m : ℕ) :
    1 ≤ mes_num_of id m ∧ mes_num_of id m ≤ 12 := by
  unfold mes_num_of
  refine ⟨Nat.succ_le_succ (Nat.zero_le _), ?_⟩
  have h : (⌊(id : ℚ) / (m : ℚ) * 12⌋).toNat % 12 < 12 := Nat.mod_lt _ (by norm_num)
  omega

theorem mes_of_shape (k : ℕ) : ∃ s : String, mes_of k = "2024-" ++ s :=
  ⟨_, rfl⟩

/-- C6: under the seasonality fallback, every record gets the bucket
`floor(vendaId / maxVendaId * 12) mod 12 + 1`, every synthesized month label
lies in the fixed reference year 2024, and the mapping is deterministic: equal
sale ids always receive the same bucket and label. -/
theorem seasonality_fallback_spec (rows : List AltRow) (hm : 0 < maxVendaId rows) :
    (∀ a ∈ fallbackAssign rows,
        (a.mes_num : ℤ) = ⌊(a.vendaId : ℚ) / (maxVendaId rows : ℚ) * 12⌋ % 12 + 1 ∧
        a.mes = mes_of a.mes_num ∧ 1 ≤ a.mes_num ∧ a.mes_num ≤ 12 ∧
        ∃ s : String, a.mes = "2024-" ++ s) ∧
    (∀ a ∈ fallbackAssign rows, ∀ b ∈ fallbackAssign rows,
        a.vendaId = b.vendaId → a.mes_num = b.mes_num ∧ a.mes = b.mes) ∧
    (∀ p ∈ fallbackSeasonality rows, ∃ s : String, p.mes = "2024-" ++ s) := by
  have hEq : fallbackAssign rows = rows.map
      (fun r => { toAltRow := r
                , mes_num := mes_num_of r.vendaId (maxVendaId rows)
                , mes := mes_of (mes_num_of r.vendaId (maxVendaId rows)) }) := rfl
  refine ⟨?_, ?_, ?_⟩
  · intro a ha
    rw [hEq] at ha
    obtain ⟨r, _, rfl⟩ := List.mem_map.mp ha
    refine ⟨mes_num_of_cast r.vendaId (maxVendaId rows), rfl,
      (mes_num_of_bounds _ _).1, (mes_num_of_bounds _ _).2, mes_of_shape _⟩
  · intro a ha b hb hid
    rw [hEq] at ha hb
    obtain ⟨ra, _, rfl⟩ := List.mem_map.mp ha
    obtain ⟨rb, _, rfl⟩ := List.mem_map.mp hb
    have hid' : ra.vendaId = rb.vendaId := hid
    rw [show ra.vendaId = rb.vendaId from hid']
    exact ⟨rfl, rfl⟩
  · intro p hp
    unfold fallbackSeasonality at hp
    obtain ⟨k, hk, rfl⟩ := List.mem_map.mp hp
    rw [List.mem_dedup] at hk
    obtain ⟨a, ha, hka⟩ := List.mem_map.mp hk
    rw [hEq] at ha
    obtain ⟨r, _, rfl⟩ := List.mem_map.mp ha
    rw [← hka]
    exact mes_of_shape _

/-- Witness for `seasonality_fallback_spec` at a two-row fallback frame. -/
theorem seasonality_fallback_spec_witness :
    (∀ a ∈ fallbackAssign exAltRows,
        (a.mes_num : ℤ) =
          ⌊(a.vendaId : ℚ) / (maxVendaId exAltRows : ℚ) * 12⌋ % 12 + 1 ∧
        a.mes = mes_of a.mes_num ∧ 1 ≤ a.mes_num ∧ a.mes_num ≤ 12 ∧
        ∃ s : String, a.mes = "2024-" ++ s) ∧
    (∀ a ∈ fallbackAssign exAltRows, ∀ b ∈ fallbackAssign exAltRows,
        a.vendaId = b.vendaId → a.mes_num = b.mes_num ∧ a.mes = b.mes) ∧
    (∀ p ∈ fallbackSeasonality exAltRows, ∃ s : String, p.mes = "2024-" ++ s) :=
  seasonality_fallback_spec exAltRows (by decide)

/-- C8 counterexample: a returned presentation row can carry a null coerced
total-value cell; from a sale line whose `valor` is null, the cleaned frame
keeps the row with `valor_total = none` instead of dropping it. -/
theorem clean_rows_valor_counterexample :
    ∃ r ∈ produtos_top_clean (get_top_products exSalesValorNull 15),
      r.valor_total = none := by
  with_unfolding_all decide

/-- C8 (amended): the presentation cleanup drops exactly the rows whose product
name or coerced quantity cell is null; a null coerced total-value cell is
retained on the surviving row (later rendered as a dash), not dropped and not
defaulted to zero. -/
theorem clean_rows_characterization (df : List RawTopRow) (r : CleanTopRow) :
    r ∈ produtos_top_clean df ↔
      ∃ r0 ∈ df, r0.produto.isSome = true ∧ r0.quantidade_total.isSome = true ∧
        r = mkCleanTopRow r0 := by
  unfold produtos_top_clean
  constructor
  · intro h
    obtain ⟨r0, hr0, rfl⟩ := List.mem_map.mp h
    obtain ⟨h1, h2⟩ := List.mem_filter.mp hr0
    rw [Bool.and_eq_true] at h2
    exact ⟨r0, h1, h2.1, h2.2, rfl⟩
  · rintro ⟨r0, h1, h2, h3, rfl⟩
    refine List.mem_map.mpr ⟨r0, List.mem_filter.mpr ⟨h1, ?_⟩, rfl⟩
    rw [Bool.and_eq_true]
    exact ⟨h2, h3⟩

/-- Witness for `clean_rows_characterization` at the one-row null-value frame. -/
theorem clean_rows_characterization_witness :
    exCleanRowA ∈ produtos_top_clean exDfValorNull ↔
      ∃ r0 ∈ exDfValorNull, r0.produto.isSome = true ∧
        r0.quantidade_total.isSome = true ∧ exCleanRowA = mkCleanTopRow r0 :=
  clean_rows_characterization exDfValorNull exCleanRowA
